import Mathlib

/-!
Verification of the Launch session/agent lifecycle manager and its web client.

The definitions below are a shallow embedding of the program:

* `api/agent/agent_manager.py` (embedded in `docs/architecture.md`): the
  `AgentManager` class with its `get_agent`, `_cleanup_old_agents`,
  `execute_agent` and `_process_response` methods, and the
  `StreamingCallbackHandler` class.
* `static/app.js`: the browser client functions `generateCode`,
  `uploadScreenshot`, `submitFeedback` and `addToVersionHistory`.

Python dictionaries are embedded as insertion-ordered association lists
(CPython dicts preserve insertion order; `del` keeps the order of the
remaining entries).  Python `sorted` on strings is lexicographic by code
point, which coincides with the `LinearOrder String` instance; we embed it
with `List.insertionSort`, a stable sort, exactly as CPython's stable sort.
Exceptions are embedded by making the outcome of the external agent call an
explicit argument, and the `try`/`except` of `execute_agent` a case split on
that outcome; a Python function that cannot raise becomes a total Lean
function.  Object identity (reference equality) is embedded by stamping each
constructed agent with a creation counter `agent_uid` drawn from the manager
state.
-/

namespace Launch

/-- An agent action inside an intermediate step of a raw LangChain agent
result: the record read by `_process_response` via `step[0].tool` and
`step[0].tool_input`. -/
structure AgentAction where
  tool : String
  tool_input : String
deriving DecidableEq, Repr

/-- The raw agent result dictionary read by `_process_response`.  Only the
keys the code reads are embedded; `Option` models presence of the key, so
`response.get("output", "")` becomes `output.getD ""`.  An intermediate step
is the pair `(agent action, tool output)` that the code destructures as
`step[0]` and `step[1]`. -/
structure RawResponse where
  output : Option String
  intermediate_steps : Option (List (AgentAction × String))
deriving DecidableEq, Repr

/-- One record of the `tool_usage` list built by `_process_response`. -/
structure ToolUsage where
  tool : String
  input : String
  output : String
deriving DecidableEq, Repr

/-- The dictionary returned by `_process_response` on the success path. -/
structure ProcessedResponse where
  output : String
  tool_usage : List ToolUsage
  raw_response : RawResponse
deriving DecidableEq, Repr

/-- Embedding of `AgentManager._process_response`.  The output sanitizer
`security.sanitize_output` is not part of the sources, so it is passed as an
explicit function argument; every theorem about `_process_response` holds for
an arbitrary sanitizer.  The Python `for` loop appending one record per step
is embedded as `List.map`, which produces the same list in the same order. -/
def process_response (sanitize_output : String → String) (response : RawResponse) :
    ProcessedResponse :=
  let output := sanitize_output (response.output.getD "")
  let tool_usage := (response.intermediate_steps.getD []).map fun step =>
    { tool := step.1.tool, input := step.1.tool_input, output := step.2 : ToolUsage }
  { output := output, tool_usage := tool_usage, raw_response := response }

/-- An agent executor, identified by the session it was created for and a
creation counter giving it object identity: two agents built by distinct
`_create_agent` calls are distinct objects, embedded as distinct
`agent_uid`s.  The LangChain pipeline wired inside `_create_agent` (prompt,
model client, parser, tools, memory) lives outside the sources and carries no
state any claim reads, so it is not embedded. -/
structure Agent where
  session_id : String
  agent_uid : Nat
deriving DecidableEq, Repr

/-- The configuration fields of `AgentConfig` that the embedded methods
read. -/
structure AgentConfig where
  max_active_agents : Nat
  enable_streaming : Bool
deriving DecidableEq, Repr

/-- The mutable state of an `AgentManager`: the `active_agents` dictionary
(insertion-ordered, unique keys) plus the creation counter that stamps
object identities. -/
structure ManagerState where
  config : AgentConfig
  active_agents : List (String × Agent)
  next_uid : Nat
deriving DecidableEq, Repr

/-- Dictionary lookup in `active_agents`: `self.active_agents[session_id]`
and the membership test `session_id in self.active_agents`. -/
def lookupAgent (sid : String) : List (String × Agent) → Option Agent
  | [] => none
  | p :: rest => if p.1 = sid then some p.2 else lookupAgent sid rest

/-- The session keys of the live agents, in dictionary (insertion) order. -/
def liveKeys (s : ManagerState) : List String :=
  s.active_agents.map Prod.fst

/-- Embedding of `AgentManager._create_agent`: builds a fresh executor for
the session, stamped with the next object identity. -/
def create_agent (s : ManagerState) (session_id : String) : Agent × ManagerState :=
  ({ session_id := session_id, agent_uid := s.next_uid },
   { s with next_uid := s.next_uid + 1 })

/-- The string order used by Python `sorted` on `str`: lexicographic by
Unicode code point, embedded on the character lists (which makes it compute
by kernel reduction).  It agrees with the `LinearOrder String` order, see
`keyLe_iff_le`. -/
def keyLe (a b : String) : Prop := a.data ≤ b.data

instance : DecidableRel keyLe := fun a b =>
  inferInstanceAs (Decidable (a.data ≤ b.data))

instance : IsTotal String keyLe := ⟨fun a b => le_total a.data b.data⟩

instance : IsTrans String keyLe := ⟨fun _ _ _ => le_trans⟩

theorem keyLe_iff_le (a b : String) : keyLe a b ↔ a ≤ b := by
  rw [String.le_iff_toList_le]; rfl

/-- The victim keys selected by `_cleanup_old_agents` when the table is over
the ceiling: `sorted(self.active_agents.keys())[:len(self.active_agents) -
self.config.max_active_agents]`.  `insertionSort` is stable, as CPython's
sort is. -/
def oldest_agents (s : ManagerState) : List String :=
  (List.insertionSort keyLe (liveKeys s)).take
    (s.active_agents.length - s.config.max_active_agents)

/-- Embedding of `AgentManager._cleanup_old_agents`: if the live count
exceeds `max_active_agents`, delete the entries whose keys are the
lexicographically smallest ones, keeping the rest in order (`del` on a
CPython dict preserves the order of the remaining entries). -/
def cleanup_old_agents (s : ManagerState) : ManagerState :=
  if s.active_agents.length > s.config.max_active_agents then
    { s with active_agents :=
        s.active_agents.filter fun p => decide (p.1 ∉ oldest_agents s) }
  else s

/-- Embedding of `AgentManager.get_agent`.  `uuid.uuid4()` is nondeterministic,
so the generated key is an explicit argument `fresh`; Python `if not
session_id` treats both `None` and the empty string as absent. -/
def get_agent (s : ManagerState) (session_id : Option String) (fresh : String) :
    (String × Agent) × ManagerState :=
  let sid := match session_id with
    | none => fresh
    | some k => if k = "" then fresh else k
  match lookupAgent sid s.active_agents with
  | some agent => ((sid, agent), s)
  | none =>
      let (agent, s1) := create_agent s sid
      let s2 := { s1 with active_agents := s1.active_agents ++ [(sid, agent)] }
      let s3 := cleanup_old_agents s2
      ((sid, agent), s3)

/-- The outcome of awaiting `agent.ainvoke` inside `execute_agent`: either a
raw result dictionary, or an exception carrying the message that
`str(e)` renders. -/
inductive AgentOutcome where
  | ok (response : RawResponse)
  | exn (message : String)
deriving DecidableEq, Repr

/-- The dictionary that `execute_agent` pairs with the session id.  The
success branch returns `_process_response`'s dictionary, which has no
`"error"` key (a missing key reads as false), so `error` is `false` there
and `raw_response` is present; the `except` branch returns
`{"output": ..., "error": True, "tool_usage": []}` with no raw response. -/
structure ExecResult where
  output : String
  error : Bool
  tool_usage : List ToolUsage
  raw_response : Option RawResponse
deriving DecidableEq, Repr

/-- Embedding of `AgentManager.execute_agent`.  `security.sanitize_input` is
not part of the sources and is passed as a function argument (as is
`sanitize_output`, consumed by `_process_response`); the external
`agent.ainvoke` call is replaced by its `outcome` argument, and the
`try`/`except Exception` block becomes the case split on that outcome: the
function is total, so no exception escapes to the caller on either branch. -/
def execute_agent (sanitize_input sanitize_output : String → String)
    (s : ManagerState) (input_text : String) (session_id : Option String)
    (fresh : String) (outcome : AgentOutcome) :
    (String × ExecResult) × ManagerState :=
  let _input := sanitize_input input_text
  let ((sid, _agent), s1) := get_agent s session_id fresh
  match outcome with
  | .ok response =>
      let p := process_response sanitize_output response
      ((sid, { output := p.output, error := false, tool_usage := p.tool_usage,
               raw_response := some p.raw_response }), s1)
  | .exn message =>
      ((sid, { output := "Error: " ++ message, error := true, tool_usage := [],
               raw_response := none }), s1)

/-- Modelled from the spec: the streamed external agent invocation.  The
hosted model and the LangChain executor driving it are outside the sources;
per the spec, one `execute` call incrementally produces a token sequence in
generation order and its final raw output text is those tokens concatenated.
`StreamingCallbackHandler.on_llm_new_token` forwards each token to the user
callback, so when a handler is attached the delivered-token list is exactly
the generation sequence, in order; with no handler attached nothing is
delivered.  Returns the raw result together with the tokens delivered to the
callback. -/
def ainvoke_streamed (tokens : List String)
    (steps : List (AgentAction × String)) (handler_attached : Bool) :
    RawResponse × List String :=
  ({ output := some (String.join tokens), intermediate_steps := some steps },
   if handler_attached then tokens else [])

/-- Embedding of `execute_agent`'s streaming success path: the streaming
handler is attached exactly when a callback was supplied and
`config.enable_streaming` holds (`if streaming_callback and
self.config.enable_streaming`), the external call runs under the attached
callbacks, and the raw result then flows through `_process_response` as in
`execute_agent`.  Returns the call's result together with the tokens
delivered to the callback during the call (delivery happens inside
`agent.ainvoke`, before the result is returned). -/
def execute_agent_streaming (sanitize_input sanitize_output : String → String)
    (s : ManagerState) (input_text : String) (session_id : Option String)
    (fresh : String) (callback_supplied : Bool) (tokens : List String)
    (steps : List (AgentAction × String)) :
    ((String × ExecResult) × ManagerState) × List String :=
  let attached := callback_supplied && s.config.enable_streaming
  let (response, delivered) := ainvoke_streamed tokens steps attached
  (execute_agent sanitize_input sanitize_output s input_text session_id fresh
     (.ok response), delivered)

/-! ## The browser client (`static/app.js`) -/

/-- A transport action taken by a client handler: either a synchronous
rejection showing a user-facing message (`alert` / `showError`) with no
request issued, or a request sent to the backend. -/
inductive ClientAction (α : Type) where
  | reject (message : String)
  | send (request : α)
deriving DecidableEq, Repr

/-- Embedding of JavaScript `String.prototype.trim`: strip leading and
trailing whitespace.  Embedded on the character lists so that it computes by
kernel reduction. -/
def jsTrim (s : String) : String :=
  ⟨(((s.data.dropWhile Char.isWhitespace).reverse.dropWhile
      Char.isWhitespace).reverse)⟩

/-- Embedding of JavaScript `String.prototype.startsWith`: `jsStartsWith s p`
holds when `p` is a leading piece of `s`.  Embedded on the character lists so
that it computes by kernel reduction. -/
def jsStartsWith (s p : String) : Bool :=
  p.data.isPrefixOf s.data

/-- The JSON body posted by `generateCode` to `/api/generate`. -/
structure GenerateRequest where
  prompt : String
  prompt_type : String
  additional_context : String
deriving DecidableEq, Repr

/-- Embedding of `generateCode`: reads the prompt field, trims it, and
rejects with an alert before any `fetch` when the trimmed prompt is empty
(JavaScript `if (!prompt)` on a string tests emptiness); otherwise it posts
the request. -/
def generateCode (prompt_field prompt_type additional_context : String) :
    ClientAction GenerateRequest :=
  let prompt := jsTrim prompt_field
  if prompt = "" then
    .reject "Please enter a description of your idea"
  else
    .send { prompt := prompt, prompt_type := prompt_type,
            additional_context := jsTrim additional_context }

/-- A file held by the screenshot input: its name and MIME type. -/
structure ScreenshotFile where
  name : String
  type : String
deriving DecidableEq, Repr

/-- Embedding of `uploadScreenshot`: rejects when no file is selected, then
rejects when the first file's MIME type does not start with `image/`; only
otherwise does it post the file to `/screenshot`. -/
def uploadScreenshot (files : List ScreenshotFile) :
    ClientAction ScreenshotFile :=
  match files with
  | [] => .reject "Please select an image file"
  | file :: _ =>
      if jsStartsWith file.type "image/" then .send file
      else .reject "Please select a valid image file"

/-- The JSON body posted by `submitFeedback` to `/api/feedback`. -/
structure FeedbackRequest where
  run_id : String
  score : Nat
  comment : String
deriving DecidableEq, Repr

/-- Embedding of `submitFeedback`: with no generation recorded it rejects;
otherwise the rating is the number of `.star.active` elements in the modal
(the page markup has exactly five stars, so this count is at most 5), a
zero rating is rejected before any `fetch`, and otherwise the rating is
posted as the score. -/
def submitFeedback (currentRunId : Option String) (activeStars : Nat)
    (comment : String) : ClientAction FeedbackRequest :=
  match currentRunId with
  | none => .reject "No code has been generated yet"
  | some run_id =>
      if activeStars = 0 then .reject "Please provide a rating"
      else .send { run_id := run_id, score := activeStars, comment := comment }

/-- A version entry as built by the client (`uploadScreenshot` builds
`{id, tag, prompt, date}`; `/api/generate` responses carry a comparable
object). -/
structure Version where
  id : String
  tag : String
  prompt : String
  date : String
deriving DecidableEq, Repr

/-- The client state that `addToVersionHistory` touches: the in-memory
`versionHistory` array, the JSON list last written to
`localStorage["launchVersionHistory"]`, and the list last passed to
`renderVersionHistory`. -/
structure VersionHistoryState where
  versionHistory : List Version
  localStorageHistory : Option (List Version)
  rendered : Option (List Version)
deriving DecidableEq, Repr

/-- Embedding of `addToVersionHistory`, statement for statement: an
`unshift` of the version, a render, a second `unshift` of the same version,
the `localStorage` write of the current array, and a second render. -/
def addToVersionHistory (st : VersionHistoryState) (version : Version) :
    VersionHistoryState :=
  let h1 := version :: st.versionHistory
  let st1 := { st with versionHistory := h1, rendered := some h1 }
  let h2 := version :: st1.versionHistory
  let st2 := { st1 with versionHistory := h2 }
  let st3 := { st2 with localStorageHistory := some st2.versionHistory }
  { st3 with rendered := some st3.versionHistory }

/-! ## Helper lemmas -/

theorem lookupAgent_eq_none_iff (sid : String) (l : List (String × Agent)) :
    lookupAgent sid l = none ↔ sid ∉ l.map Prod.fst := by
  induction l with
  | nil => simp [lookupAgent]
  | cons p rest ih =>
      simp only [lookupAgent, List.map_cons, List.mem_cons]
      by_cases h : p.1 = sid
      · simp [h]
      · rw [if_neg h, ih]
        constructor
        · intro hnm hor
          rcases hor with he | hm
          · exact h he.symm
          · exact hnm hm
        · intro hcon hm
          exact hcon (Or.inr hm)

theorem lookupAgent_append_self (sid : String) (a : Agent)
    (l : List (String × Agent)) (h : sid ∉ l.map Prod.fst) :
    lookupAgent sid (l ++ [(sid, a)]) = some a := by
  induction l with
  | nil => simp [lookupAgent]
  | cons p rest ih =>
      simp only [List.map_cons, List.mem_cons] at h
      push_neg at h
      rw [List.cons_append]
      simp only [lookupAgent]
      rw [if_neg fun he => h.1 he.symm]
      exact ih h.2

theorem length_filter_add_length_filter_neg {α : Type} (l : List α)
    (q : α → Bool) :
    (l.filter q).length + (l.filter fun a => !(q a)).length = l.length := by
  induction l with
  | nil => rfl
  | cons x rest ih =>
      cases hx : q x <;> simp [List.filter_cons, hx] <;> omega

theorem length_filter_key_mem (l : List (String × Agent)) (ev : List String)
    (hnd : (l.map Prod.fst).Nodup) (hevnd : ev.Nodup)
    (hsub : ∀ k ∈ ev, k ∈ l.map Prod.fst) :
    (l.filter fun p => decide (p.1 ∈ ev)).length = ev.length := by
  have hcomm : (l.map Prod.fst).filter (fun k => decide (k ∈ ev))
      = (l.filter fun p => decide (p.1 ∈ ev)).map Prod.fst := by
    simpa [Function.comp] using List.filter_map Prod.fst l
  have hperm : List.Perm ((l.map Prod.fst).filter (fun k => decide (k ∈ ev))) ev := by
    rw [List.perm_ext_iff_of_nodup (hnd.filter _) hevnd]
    intro a
    simp only [List.mem_filter, decide_eq_true_eq]
    exact ⟨fun h => h.2, fun h => ⟨hsub a h, h⟩⟩
  have := hperm.length_eq
  rw [hcomm] at this
  simpa using this

theorem oldest_agents_nodup (s : ManagerState) (hnd : (liveKeys s).Nodup) :
    (oldest_agents s).Nodup :=
  ((List.take_sublist _ _).nodup
    (((List.perm_insertionSort keyLe (liveKeys s)).nodup_iff).mpr hnd))

theorem oldest_agents_subset (s : ManagerState) :
    ∀ k ∈ oldest_agents s, k ∈ liveKeys s := fun k hk =>
  (List.perm_insertionSort keyLe (liveKeys s)).mem_iff.mp
    (List.take_subset _ _ hk)

theorem oldest_agents_length (s : ManagerState)
    (hover : s.config.max_active_agents < s.active_agents.length) :
    (oldest_agents s).length =
      s.active_agents.length - s.config.max_active_agents := by
  have hsortlen : (List.insertionSort keyLe (liveKeys s)).length =
      s.active_agents.length := by
    rw [(List.perm_insertionSort keyLe (liveKeys s)).length_eq]
    simp [liveKeys]
  rw [oldest_agents, List.length_take, hsortlen]
  omega

/-- A concrete manager state for the regression scenario of the eviction
policy: ceiling 2, with agents registered for the keys `"b"`, `"a"`, `"c"`
in that insertion (creation) order. -/
def bacDemoState : ManagerState :=
  { config := { max_active_agents := 2, enable_streaming := true },
    active_agents := [("b", { session_id := "b", agent_uid := 0 }),
      ("a", { session_id := "a", agent_uid := 1 }),
      ("c", { session_id := "c", agent_uid := 2 })],
    next_uid := 3 }

/-! ## Theorems -/

/-- C1: for every input text, session key, sanitizers and failure message,
when the external agent call inside `execute_agent` fails, the call returns
(rather than raises: the embedded function is total, mirroring the
`try`/`except Exception` that converts the exception into a return value) a
result whose error flag is true, whose output is the human-readable
`"Error: " ++ message`, and whose tool-usage list is empty — and it still
returns the resolved session key (the supplied key when one was given, the
generated one otherwise) alongside that result. -/
theorem C1_execute_agent_soft_fail (san_in san_out : String → String)
    (s : ManagerState) (input_text : String) (session_id : Option String)
    (fresh message : String) :
    (execute_agent san_in san_out s input_text session_id fresh
        (.exn message)).1.2 =
      { output := "Error: " ++ message, error := true, tool_usage := [],
        raw_response := none } ∧
    (execute_agent san_in san_out s input_text session_id fresh
        (.exn message)).1.1 = (get_agent s session_id fresh).1.1 ∧
    (∀ k, session_id = some k → k ≠ "" →
      (execute_agent san_in san_out s input_text session_id fresh
          (.exn message)).1.1 = k) ∧
    (session_id = none →
      (execute_agent san_in san_out s input_text session_id fresh
          (.exn message)).1.1 = fresh) := by
  refine ⟨rfl, rfl, ?_, ?_⟩
  · rintro k rfl hk
    cases h : lookupAgent k s.active_agents <;>
      simp [execute_agent, get_agent, hk, h]
  · rintro rfl
    cases h : lookupAgent fresh s.active_agents <;>
      simp [execute_agent, get_agent, h]

/-- C1 witness: the soft-fail contract evaluated on a concrete call. -/
theorem C1_execute_agent_soft_fail_witness :
    (execute_agent id id
        { config := { max_active_agents := 2, enable_streaming := true },
          active_agents := [], next_uid := 0 }
        "hello" (some "k") "f" (.exn "boom")).1.2 =
      { output := "Error: boom", error := true, tool_usage := [],
        raw_response := none } ∧
    (execute_agent id id
        { config := { max_active_agents := 2, enable_streaming := true },
          active_agents := [], next_uid := 0 }
        "hello" (some "k") "f" (.exn "boom")).1.1 = "k" :=
  ⟨(C1_execute_agent_soft_fail id id _ "hello" (some "k") "f" "boom").1,
   (C1_execute_agent_soft_fail id id
      { config := { max_active_agents := 2, enable_streaming := true },
        active_agents := [], next_uid := 0 }
      "hello" (some "k") "f" "boom").2.2.1 "k" rfl (by decide)⟩

/-- C2: whenever the live-agent count exceeds the configured ceiling,
cleanup selects exactly (count − ceiling) victim keys, the survivors are
exactly the live keys outside the victim set, every victim key precedes
every surviving key in string sort order (so the victims are the
lexicographically smallest keys, regardless of access recency or creation
time), and exactly the ceiling many sessions remain live.  Concretely, with
ceiling 2 and keys inserted in the order `"b"`, `"a"`, `"c"`, the third
insert evicts `"a"` and leaves the live set `{"b", "c"}`, even though `"b"`
was created first chronologically. -/
theorem C2_eviction_sort_order :
    (∀ s : ManagerState, (liveKeys s).Nodup →
        s.config.max_active_agents < s.active_agents.length →
        (cleanup_old_agents s).active_agents.length =
            s.config.max_active_agents ∧
        (oldest_agents s).length =
            s.active_agents.length - s.config.max_active_agents ∧
        (∀ k, k ∈ liveKeys (cleanup_old_agents s) ↔
            k ∈ liveKeys s ∧ k ∉ oldest_agents s) ∧
        (∀ a ∈ oldest_agents s, ∀ b ∈ liveKeys (cleanup_old_agents s),
            keyLe a b)) ∧
    liveKeys (get_agent (get_agent (get_agent
        { config := { max_active_agents := 2, enable_streaming := true },
          active_agents := [], next_uid := 0 }
        (some "b") "fb").2 (some "a") "fa").2 (some "c") "fc").2
      = ["b", "c"] := by
  constructor
  · intro s hnd hover
    have hev_len := oldest_agents_length s hover
    have hev_nd := oldest_agents_nodup s hnd
    have hev_sub := oldest_agents_subset s
    have hclean : (cleanup_old_agents s).active_agents =
        s.active_agents.filter fun p => decide (p.1 ∉ oldest_agents s) := by
      rw [cleanup_old_agents, if_pos hover]
    have hfneg : (s.active_agents.filter fun p =>
          decide (p.1 ∉ oldest_agents s))
        = s.active_agents.filter fun p => !(decide (p.1 ∈ oldest_agents s)) := by
      simp only [decide_not]
    have hlen : (cleanup_old_agents s).active_agents.length =
        s.config.max_active_agents := by
      have hadd := length_filter_add_length_filter_neg s.active_agents
        (fun p => decide (p.1 ∈ oldest_agents s))
      have hmeml := length_filter_key_mem s.active_agents (oldest_agents s)
        hnd hev_nd (fun k hk => hev_sub k hk)
      rw [hclean, hfneg]
      omega
    refine ⟨hlen, hev_len, ?_, ?_⟩
    · intro k
      simp only [liveKeys]
      rw [hclean]
      simp only [List.mem_map, List.mem_filter, decide_eq_true_eq]
      constructor
      · rintro ⟨p, ⟨hpmem, hpnot⟩, rfl⟩
        exact ⟨⟨p, hpmem, rfl⟩, hpnot⟩
      · rintro ⟨⟨p, hpmem, rfl⟩, hnot⟩
        exact ⟨p, ⟨hpmem, hnot⟩, rfl⟩
    · intro a ha b hb
      simp only [liveKeys] at hb
      rw [hclean] at hb
      simp only [List.mem_map, List.mem_filter, decide_eq_true_eq] at hb
      obtain ⟨p, ⟨hpmem, hpnot⟩, rfl⟩ := hb
      have hbsort : p.1 ∈ List.insertionSort keyLe (liveKeys s) :=
        (List.perm_insertionSort keyLe (liveKeys s)).mem_iff.mpr
          (List.mem_map.mpr ⟨p, hpmem, rfl⟩)
      have hbdrop : p.1 ∈ (List.insertionSort keyLe (liveKeys s)).drop
          (s.active_agents.length - s.config.max_active_agents) := by
        have hsplit := List.take_append_drop
          (s.active_agents.length - s.config.max_active_agents)
          (List.insertionSort keyLe (liveKeys s))
        rw [← hsplit] at hbsort
        rcases List.mem_append.mp hbsort with htk | hdr
        · exact absurd htk hpnot
        · exact hdr
      exact List.Sorted.rel_of_mem_take_of_mem_drop
        (List.sorted_insertionSort keyLe (liveKeys s)) ha hbdrop
  · decide

/-- C2 witness: the general eviction statement applied to the state holding
the keys `"b"`, `"a"`, `"c"` in insertion order with ceiling 2, discharging
the nodup-keys and over-ceiling hypotheses there. -/
theorem C2_eviction_sort_order_witness :
    (liveKeys bacDemoState).Nodup ∧
    2 < bacDemoState.active_agents.length ∧
    (cleanup_old_agents bacDemoState).active_agents.length = 2 ∧
    (∀ k, k ∈ liveKeys (cleanup_old_agents bacDemoState) ↔
      k ∈ liveKeys bacDemoState ∧ k ∉ oldest_agents bacDemoState) :=
  ⟨by decide, by decide,
   (C2_eviction_sort_order.1 bacDemoState (by decide) (by decide)).1,
   (C2_eviction_sort_order.1 bacDemoState (by decide) (by decide)).2.2.1⟩

/-- C3: `get_agent` is reference-stable.  Under the creation-counter
invariant (every live agent was stamped below the current counter), a call
with a key that is registered returns the identical stored agent object and
leaves the state untouched — so any sequence of calls with that key keeps
returning that same object until the key is evicted; a call with an absent
key returns that key with a newly constructed agent (an object distinct from
every live one) and registers it under the key (shown here for a table that
stays within the ceiling, where cleanup evicts nothing); and a call with no
key uses the freshly generated key. -/
theorem C3_get_agent_reference_stable (s : ManagerState) (fresh : String)
    (huid : ∀ p ∈ s.active_agents, p.2.agent_uid < s.next_uid) :
    (∀ k a, k ≠ "" → lookupAgent k s.active_agents = some a →
        get_agent s (some k) fresh = ((k, a), s)) ∧
    (∀ k, k ≠ "" → lookupAgent k s.active_agents = none →
        (get_agent s (some k) fresh).1.1 = k ∧
        (get_agent s (some k) fresh).1.2 =
          { session_id := k, agent_uid := s.next_uid } ∧
        (∀ p ∈ s.active_agents, p.2 ≠ (get_agent s (some k) fresh).1.2) ∧
        (s.active_agents.length + 1 ≤ s.config.max_active_agents →
          lookupAgent k (get_agent s (some k) fresh).2.active_agents =
            some { session_id := k, agent_uid := s.next_uid })) ∧
    ((get_agent s none fresh).1.1 = fresh ∧
      (lookupAgent fresh s.active_agents = none →
        (get_agent s none fresh).1.2 =
          { session_id := fresh, agent_uid := s.next_uid })) := by
  refine ⟨?_, ?_, ?_, ?_⟩
  · intro k a hk hl
    simp [get_agent, hk, hl]
  · intro k hk hl
    refine ⟨by simp [get_agent, hk, hl], by simp [get_agent, create_agent, hk, hl], ?_, ?_⟩
    · intro p hp heq
      have hlt := huid p hp
      rw [heq] at hlt
      simp [get_agent, create_agent, hk, hl] at hlt
    · intro hroom
      have hbody : (get_agent s (some k) fresh).2 =
          cleanup_old_agents
            { config := s.config,
              active_agents := s.active_agents ++
                [(k, { session_id := k, agent_uid := s.next_uid })],
              next_uid := s.next_uid + 1 } := by
        simp [get_agent, create_agent, hk, hl]
      have hnoclean : cleanup_old_agents
          { config := s.config,
            active_agents := s.active_agents ++
              [(k, { session_id := k, agent_uid := s.next_uid })],
            next_uid := s.next_uid + 1 } =
          { config := s.config,
            active_agents := s.active_agents ++
              [(k, { session_id := k, agent_uid := s.next_uid })],
            next_uid := s.next_uid + 1 } := by
        rw [cleanup_old_agents, if_neg]
        simp only [List.length_append, List.length_cons, List.length_nil]
        omega
      rw [hbody, hnoclean]
      exact lookupAgent_append_self k _ s.active_agents
        ((lookupAgent_eq_none_iff k s.active_agents).mp hl)
  · cases h : lookupAgent fresh s.active_agents <;> simp [get_agent, h]
  · intro h
    simp [get_agent, create_agent, h]

/-- C3 witness: the reference-stability statement applied concretely — a
repeated lookup of the registered key `"b"` in the demo state returns the
stored agent and leaves the state unchanged, and a call without a key uses
the generated key. -/
theorem C3_get_agent_reference_stable_witness :
    get_agent bacDemoState (some "b") "fresh" =
      (("b", { session_id := "b", agent_uid := 0 }), bacDemoState) ∧
    (get_agent bacDemoState none "fresh").1.1 = "fresh" :=
  ⟨(C3_get_agent_reference_stable bacDemoState "fresh" (by decide)).1
      "b" { session_id := "b", agent_uid := 0 } (by decide) (by decide),
   (C3_get_agent_reference_stable bacDemoState "fresh" (by decide)).2.2.1⟩

/-- C4: a concrete `get_agent` sequence past the ceiling in which the
eviction policy removes the key created by the very call that triggered it.
With ceiling 2 and keys `"b"`, `"c"` already live, `get_agent` for `"a"`
registers the new agent, cleanup then sorts the keys and deletes the
lexicographically smallest — the just-created `"a"` — so the call returns a
`("a", agent)` pair whose key is absent from the table at return, and a
subsequent `get_agent` for `"a"` builds a different agent object. -/
theorem C4_created_key_evicted :
    (get_agent (get_agent (get_agent
        { config := { max_active_agents := 2, enable_streaming := true },
          active_agents := [], next_uid := 0 }
        (some "b") "fb").2 (some "c") "fc").2 (some "a") "fa").1.1 = "a" ∧
    lookupAgent "a" (get_agent (get_agent (get_agent
        { config := { max_active_agents := 2, enable_streaming := true },
          active_agents := [], next_uid := 0 }
        (some "b") "fb").2 (some "c") "fc").2 (some "a") "fa").2.active_agents
      = none ∧
    liveKeys (get_agent (get_agent (get_agent
        { config := { max_active_agents := 2, enable_streaming := true },
          active_agents := [], next_uid := 0 }
        (some "b") "fb").2 (some "c") "fc").2 (some "a") "fa").2 = ["b", "c"] ∧
    (get_agent (get_agent (get_agent (get_agent
        { config := { max_active_agents := 2, enable_streaming := true },
          active_agents := [], next_uid := 0 }
        (some "b") "fb").2 (some "c") "fc").2 (some "a") "fa").2
        (some "a") "fa2").1.2
      ≠ (get_agent (get_agent (get_agent
        { config := { max_active_agents := 2, enable_streaming := true },
          active_agents := [], next_uid := 0 }
        (some "b") "fb").2 (some "c") "fc").2 (some "a") "fa").1.2 := by
  decide

/-- C5 counterexample: on the malformed raw result that is missing both the
output text and the intermediate steps, `_process_response` does not signal
any malformed-response condition — it returns normally, substituting the
default empty output and empty tool-usage list (`response.get("output", "")`
and `response.get("intermediate_steps", [])`). -/
theorem C5_process_response_defaults :
    process_response id { output := none, intermediate_steps := none } =
      { output := "", tool_usage := [],
        raw_response := { output := none, intermediate_steps := none } } := by
  rfl

/-- C5 amended: `_process_response` is a total pure transformation — it
never fails, on well-formed or malformed input alike; on a raw result
missing the output text it substitutes the sanitized default empty string,
and on one missing the intermediate steps it substitutes the empty
tool-usage list, rather than signalling a distinct `MalformedResponse`
condition (no such condition exists in the code). -/
theorem C5_process_response_total_defaults (san : String → String)
    (r : RawResponse) (hout : r.output = none)
    (hsteps : r.intermediate_steps = none) :
    process_response san r =
      { output := san "", tool_usage := [], raw_response := r } := by
  simp [process_response, hout, hsteps]

/-- C5 witness: the amended statement evaluated at a concrete malformed
result. -/
theorem C5_process_response_total_defaults_witness :
    process_response id { output := none, intermediate_steps := none } =
      { output := "", tool_usage := [],
        raw_response := { output := none, intermediate_steps := none } } :=
  C5_process_response_total_defaults id
    { output := none, intermediate_steps := none } rfl rfl

/-- C6: for every raw agent result carrying an ordered sequence of
(tool invocation, tool output) intermediate steps, the tool-usage list built
by `_process_response` has one `{tool, input, output}` record per step and
the record at every position comes from the step at the same position, so
the list order is exactly the order the tools were invoked. -/
theorem C6_tool_usage_order (san : String → String) (r : RawResponse)
    (steps : List (AgentAction × String))
    (h : r.intermediate_steps = some steps) :
    (process_response san r).tool_usage.length = steps.length ∧
    ∀ i (hi : i < (process_response san r).tool_usage.length)
        (hi2 : i < steps.length),
      (process_response san r).tool_usage.get ⟨i, hi⟩ =
        { tool := (steps.get ⟨i, hi2⟩).1.tool,
          input := (steps.get ⟨i, hi2⟩).1.tool_input,
          output := (steps.get ⟨i, hi2⟩).2 } := by
  constructor
  · simp [process_response, h]
  · intro i hi hi2
    simp [process_response, h]

/-- C6 witness: the order-preservation statement evaluated on a concrete
two-step result. -/
theorem C6_tool_usage_order_witness :
    (process_response id
        { output := some "done",
          intermediate_steps := some
            [({ tool := "search", tool_input := "q1" }, "r1"),
             ({ tool := "fetch", tool_input := "q2" }, "r2")] }).tool_usage.length
      = 2 ∧
    (process_response id
        { output := some "done",
          intermediate_steps := some
            [({ tool := "search", tool_input := "q1" }, "r1"),
             ({ tool := "fetch", tool_input := "q2" }, "r2")] }).tool_usage.get
        ⟨1, by decide⟩
      = { tool := "fetch", input := "q2", output := "r2" } :=
  ⟨(C6_tool_usage_order id
      { output := some "done",
        intermediate_steps := some
          [({ tool := "search", tool_input := "q1" }, "r1"),
           ({ tool := "fetch", tool_input := "q2" }, "r2")] }
      [({ tool := "search", tool_input := "q1" }, "r1"),
       ({ tool := "fetch", tool_input := "q2" }, "r2")] rfl).1,
   (C6_tool_usage_order id
      { output := some "done",
        intermediate_steps := some
          [({ tool := "search", tool_input := "q1" }, "r1"),
           ({ tool := "fetch", tool_input := "q2" }, "r2")] }
      [({ tool := "search", tool_input := "q1" }, "r1"),
       ({ tool := "fetch", tool_input := "q2" }, "r2")] rfl).2 1
      (by decide) (by decide)⟩

/-- C8: the transport-layer handlers reject bad inputs synchronously, before
any request is issued: `generateCode` rejects every prompt that is empty
after trimming with its user-facing alert, and `uploadScreenshot` rejects
every selected file whose MIME type is not an image type with its user-facing
message — in both cases the handler returns a rejection, not a request, so
nothing reaches the backend. -/
theorem C8_transport_rejects_bad_input :
    (∀ prompt_field prompt_type additional_context,
        jsTrim prompt_field = "" →
        generateCode prompt_field prompt_type additional_context =
          .reject "Please enter a description of your idea") ∧
    (∀ (file : ScreenshotFile) (rest : List ScreenshotFile),
        jsStartsWith file.type "image/" = false →
        uploadScreenshot (file :: rest) =
          .reject "Please select a valid image file") := by
  constructor
  · intro pf pt ac h
    simp [generateCode, h]
  · intro file rest h
    simp [uploadScreenshot, h]

/-- C8 witness: the rejections evaluated on a concrete whitespace prompt and
a concrete text file. -/
theorem C8_transport_rejects_bad_input_witness :
    generateCode "   " "component" "" =
      .reject "Please enter a description of your idea" ∧
    uploadScreenshot [{ name := "notes.txt", type := "text/plain" }] =
      .reject "Please select a valid image file" :=
  ⟨C8_transport_rejects_bad_input.1 "   " "component" "" (by decide),
   C8_transport_rejects_bad_input.2
     { name := "notes.txt", type := "text/plain" } [] (by decide)⟩

/-- C9: for every feedback submission, a score outside 1–5 is rejected
before the feedback is recorded.  The rating is the number of active star
elements, and the page markup has exactly five stars, so the count is at
most 5; under that bound, `submitFeedback` rejects with its user-facing
message exactly when the rating is not between 1 and 5 inclusive, and every
request it does send carries a score between 1 and 5. -/
theorem C9_feedback_score_range (run_id comment : String) (activeStars : Nat)
    (hdom : activeStars ≤ 5) :
    (¬ (1 ≤ activeStars ∧ activeStars ≤ 5) →
        submitFeedback (some run_id) activeStars comment =
          .reject "Please provide a rating") ∧
    (∀ req, submitFeedback (some run_id) activeStars comment = .send req →
        1 ≤ req.score ∧ req.score ≤ 5) := by
  constructor
  · intro hout
    have h0 : activeStars = 0 := by omega
    simp [submitFeedback, h0]
  · intro req hsend
    rcases Nat.eq_zero_or_pos activeStars with h0 | hpos
    · simp [submitFeedback, h0] at hsend
    · have hne : activeStars ≠ 0 := Nat.pos_iff_ne_zero.mp hpos
      simp [submitFeedback, hne] at hsend
      rcases hsend with ⟨rfl⟩
      exact ⟨hpos, hdom⟩

/-- C9 witness: a zero-star submission is rejected, concretely. -/
theorem C9_feedback_score_range_witness :
    (0 : Nat) ≤ 5 ∧
    submitFeedback (some "run-1") 0 "nice" =
      .reject "Please provide a rating" :=
  ⟨by decide,
   (C9_feedback_score_range "run-1" "nice" 0 (by decide)).1 (by decide)⟩

/-- C10: each `addToVersionHistory` call inserts the given version at the
front of the in-memory history twice (one `unshift` before the first render
and a second one after it), so the history grows by exactly 2, its first two
entries are the same version, and the duplicated list is what is written to
`localStorage` and what the final render shows. -/
theorem C10_version_history_double_insert (st : VersionHistoryState)
    (v : Version) :
    (addToVersionHistory st v).versionHistory = v :: v :: st.versionHistory ∧
    (addToVersionHistory st v).versionHistory.length =
      st.versionHistory.length + 2 ∧
    (addToVersionHistory st v).localStorageHistory =
      some (v :: v :: st.versionHistory) ∧
    (addToVersionHistory st v).rendered =
      some (v :: v :: st.versionHistory) := by
  refine ⟨rfl, by simp [addToVersionHistory], rfl, rfl⟩

/-- C7 counterexample: an `execute_agent` call with a streaming callback
supplied whose delivered tokens, concatenated, do not equal the returned
output text.  When `config.enable_streaming` is false the handler is never
attached (`if streaming_callback and self.config.enable_streaming`), so the
callback receives nothing even though the call produces and returns the
generated text. -/
theorem C7_streaming_counterexample :
    (execute_agent_streaming id id
        { config := { max_active_agents := 10, enable_streaming := false },
          active_agents := [], next_uid := 0 }
        "hi" (some "k") "f" true ["hel", "lo"] []).2 = [] ∧
    (execute_agent_streaming id id
        { config := { max_active_agents := 10, enable_streaming := false },
          active_agents := [], next_uid := 0 }
        "hi" (some "k") "f" true ["hel", "lo"] []).1.1.2.output = "hello" ∧
    String.join (execute_agent_streaming id id
        { config := { max_active_agents := 10, enable_streaming := false },
          active_agents := [], next_uid := 0 }
        "hi" (some "k") "f" true ["hel", "lo"] []).2
      ≠ (execute_agent_streaming id id
        { config := { max_active_agents := 10, enable_streaming := false },
          active_agents := [], next_uid := 0 }
        "hi" (some "k") "f" true ["hel", "lo"] []).1.1.2.output := by
  refine ⟨rfl, rfl, ?_⟩
  intro h
  simp [execute_agent_streaming, ainvoke_streamed, execute_agent,
    process_response, String.join] at h

/-- C7 amended: for one `execute_agent` call with a streaming callback
supplied, provided the configuration enables streaming, the tokens delivered
to the callback are exactly the generated token sequence in generation order
(delivered inside the agent invocation, before the result is returned), and
the returned output text is the sanitized form of their concatenation — so
the streamed path and the batch path yield the same text whenever output
sanitization leaves the generated text unchanged. -/
theorem C7_streaming_consistency (san_in san_out : String → String)
    (s : ManagerState) (input_text : String) (session_id : Option String)
    (fresh : String) (tokens : List String)
    (steps : List (AgentAction × String))
    (hstream : s.config.enable_streaming = true) :
    (execute_agent_streaming san_in san_out s input_text session_id fresh
        true tokens steps).2 = tokens ∧
    (execute_agent_streaming san_in san_out s input_text session_id fresh
        true tokens steps).1.1.2.output =
      san_out (String.join (execute_agent_streaming san_in san_out s
        input_text session_id fresh true tokens steps).2) ∧
    (san_out (String.join tokens) = String.join tokens →
      String.join (execute_agent_streaming san_in san_out s input_text
          session_id fresh true tokens steps).2 =
        (execute_agent_streaming san_in san_out s input_text session_id
          fresh true tokens steps).1.1.2.output) := by
  have hdel : (execute_agent_streaming san_in san_out s input_text session_id
      fresh true tokens steps).2 = tokens := by
    simp [execute_agent_streaming, ainvoke_streamed, hstream]
  refine ⟨hdel, ?_, ?_⟩
  · rw [hdel]
    rfl
  · intro hfix
    rw [hdel]
    calc String.join tokens = san_out (String.join tokens) := hfix.symm
    _ = _ := rfl

/-- C7 witness: the amended consistency statement evaluated on a concrete
streamed call with the identity sanitizer. -/
theorem C7_streaming_consistency_witness :
    (execute_agent_streaming id id
        { config := { max_active_agents := 10, enable_streaming := true },
          active_agents := [], next_uid := 0 }
        "hi" (some "k") "f" true ["hel", "lo"] []).2 = ["hel", "lo"] ∧
    String.join (execute_agent_streaming id id
        { config := { max_active_agents := 10, enable_streaming := true },
          active_agents := [], next_uid := 0 }
        "hi" (some "k") "f" true ["hel", "lo"] []).2
      = (execute_agent_streaming id id
        { config := { max_active_agents := 10, enable_streaming := true },
          active_agents := [], next_uid := 0 }
        "hi" (some "k") "f" true ["hel", "lo"] []).1.1.2.output :=
  ⟨(C7_streaming_consistency id id
      { config := { max_active_agents := 10, enable_streaming := true },
        active_agents := [], next_uid := 0 }
      "hi" (some "k") "f" ["hel", "lo"] [] rfl).1,
   (C7_streaming_consistency id id
      { config := { max_active_agents := 10, enable_streaming := true },
        active_agents := [], next_uid := 0 }
      "hi" (some "k") "f" ["hel", "lo"] [] rfl).2.2 rfl⟩

end Launch
